import Mathlib

/-!
Shallow embedding of the feedback-board server (`src/server/index.js`,
the canonical variant with status column and admin gate).

The relational store (SQLite) is modelled as an explicit `DB` state:
three tables as lists of rows, per-table autoincrement counters, and a
logical clock supplying the server-assigned `created_at` timestamps
(`TIMESTAMP DEFAULT CURRENT_TIMESTAMP`).  Each HTTP handler becomes a
function from the request data and the current `DB` to a result value
(carrying the HTTP status) and the next `DB`.  JavaScript truthiness on
JSON string fields (`!title`) is modelled by `Option String` with
`present`; the `!== undefined` checks of the PUT handler are modelled by
`Option.isSome`.  SQLite's `FOREIGN KEY` clauses are declared but never
enforced (the server never issues `PRAGMA foreign_keys = ON`), so the
model's inserts perform no referential check, exactly like the code.
-/

namespace FeedbackBoard

/-- A row of the `feedback` table (id, title, description, user_email,
created_at, status). -/
structure FeedbackRow where
  id : Nat
  title : String
  description : String
  user_email : String
  created_at : Nat
  status : String
deriving Repr, DecidableEq

/-- A row of the `upvotes` table. -/
structure UpvoteRow where
  id : Nat
  feedback_id : Nat
  user_email : String
deriving Repr, DecidableEq

/-- A row of the `comments` table. -/
structure CommentRow where
  id : Nat
  feedback_id : Nat
  user_email : String
  comment_text : String
  created_at : Nat
deriving Repr, DecidableEq

/-- The persistent store: the three tables, the autoincrement counters,
and the clock that yields `CURRENT_TIMESTAMP` values. -/
structure DB where
  feedback : List FeedbackRow
  upvotes : List UpvoteRow
  comments : List CommentRow
  nextFeedbackId : Nat
  nextUpvoteId : Nat
  nextCommentId : Nat
  clock : Nat
deriving Repr, DecidableEq

/-- Characters allowed by `[^\s@]` in the email regex. -/
def isEmailChar (c : Char) : Bool :=
  !c.isWhitespace && c != '@'

/-- Split a list at the first occurrence of `sep`; `none` if absent. -/
def splitFirst (sep : Char) : List Char → Option (List Char × List Char)
  | [] => none
  | c :: rest =>
      if c = sep then some ([], rest)
      else
        match splitFirst sep rest with
        | some (l, r) => some (c :: l, r)
        | none => none

/-- Does the list contain a `'.'` that has at least one character before
it and at least one after it?  (The domain part of the regex,
`[^\s@]+\.[^\s@]+`, matches exactly when such an interior dot exists,
given that every character is an email character.) -/
def hasDotSplit : List Char → Bool
  | _ :: '.' :: _ :: _ => true
  | _ :: c :: rest => hasDotSplit (c :: rest)
  | _ => false

/-- The source function isValidEmail: the test of
`/^[^\s@]+@[^\s@]+\.[^\s@]+$/` — a nonempty run of non-space non-`@`
characters, one `@`, then a domain of such characters containing an
interior dot. -/
def isValidEmail (email : String) : Bool :=
  match splitFirst '@' email.data with
  | none => false
  | some (loc, domain) =>
      !loc.isEmpty && loc.all isEmailChar &&
      domain.all isEmailChar && hasDotSplit domain

/-- Lowercasing (`.toLowerCase()`) on the query string, as a character-wise map. -/
def toLowerStr (s : String) : String :=
  ⟨s.data.map Char.toLower⟩

/-- JavaScript truthiness of an optional JSON string field:
present and nonempty. -/
def present : Option String → Bool
  | some s => !s.isEmpty
  | none => false

/-- The query `SELECT COUNT(*) FROM upvotes WHERE feedback_id = ?`. -/
def upvoteCount (db : DB) (fid : Nat) : Nat :=
  (db.upvotes.filter (fun u => u.feedback_id == fid)).length

/-- The query `SELECT COUNT(*) FROM comments WHERE feedback_id = ?`. -/
def commentCount (db : DB) (fid : Nat) : Nat :=
  (db.comments.filter (fun c => c.feedback_id == fid)).length

/-! ### GET /api/feedback -/

/-- A row of the listing query: a feedback row joined with its computed
`upvote_count` and `comment_count`. -/
structure FeedbackView where
  id : Nat
  title : String
  description : String
  user_email : String
  created_at : Nat
  status : String
  upvote_count : Nat
  comment_count : Nat
deriving Repr, DecidableEq

/-- The `SELECT ... LEFT JOIN` projection for one feedback row. -/
def feedbackView (db : DB) (f : FeedbackRow) : FeedbackView :=
  { id := f.id, title := f.title, description := f.description,
    user_email := f.user_email, created_at := f.created_at,
    status := f.status,
    upvote_count := upvoteCount db f.id,
    comment_count := commentCount db f.id }

/-- The clause `ORDER BY f.created_at DESC` (the `newest` sort): an earlier output
row has a created_at no smaller than a later one. -/
def newestOrder (a b : FeedbackView) : Prop :=
  b.created_at ≤ a.created_at

instance : DecidableRel newestOrder := fun a b =>
  inferInstanceAs (Decidable (b.created_at ≤ a.created_at))

instance : IsTotal FeedbackView newestOrder :=
  ⟨fun a b => le_total b.created_at a.created_at⟩

instance : IsTrans FeedbackView newestOrder :=
  ⟨fun _ _ _ hab hbc => le_trans hbc hab⟩

/-- The clause `ORDER BY upvote_count DESC, f.created_at DESC` (the default /
`upvotes` sort). -/
def upvotesOrder (a b : FeedbackView) : Prop :=
  b.upvote_count < a.upvote_count ∨
    (a.upvote_count = b.upvote_count ∧ b.created_at ≤ a.created_at)

instance : DecidableRel upvotesOrder := fun _ _ =>
  inferInstanceAs (Decidable (_ ∨ _))

instance : IsTotal FeedbackView upvotesOrder := by
  constructor
  intro a b
  unfold upvotesOrder
  omega

instance : IsTrans FeedbackView upvotesOrder := by
  constructor
  intro a b c hab hbc
  unfold upvotesOrder at *
  omega

/-- Handler of `GET /api/feedback`: normalize the `sortBy` query parameter
(`(req.query.sortBy || 'upvotes').toString().toLowerCase()`), join every
feedback row with its counts, and sort by the selected `ORDER BY`
clause. -/
def listFeedback (db : DB) (sortBy : Option String) : List FeedbackView :=
  let s := toLowerStr (match sortBy with
    | none => "upvotes"
    | some q => if q.isEmpty then "upvotes" else q)
  let views := db.feedback.map (feedbackView db)
  if s = "newest" then
    views.insertionSort newestOrder
  else
    views.insertionSort upvotesOrder

/-! ### POST /api/feedback -/

/-- The JSON body of `POST /api/feedback`. -/
structure CreateBody where
  title : Option String
  description : Option String
  user_email : Option String
deriving Repr, DecidableEq

/-- Result of `POST /api/feedback`. -/
inductive CreateResult where
  | badRequest (msg : String)
  | created (row : FeedbackRow) (upvote_count comment_count : Nat)
deriving Repr, DecidableEq

/-- HTTP status of a `CreateResult`. -/
def CreateResult.status : CreateResult → Nat
  | .badRequest _ => 400
  | .created _ _ _ => 201

/-- Handler of `POST /api/feedback`: validate presence of the three fields and the
email shape, then `INSERT INTO feedback (title, description, user_email)`
(status takes the schema default `'Open'`, created_at the current
timestamp), re-select the inserted row and answer 201 with hardcoded
`upvote_count: 0, comment_count: 0`. -/
def createFeedback (db : DB) (b : CreateBody) : CreateResult × DB :=
  if !present b.title || !present b.description || !present b.user_email then
    (.badRequest "title, description, and user_email are required", db)
  else if !isValidEmail (b.user_email.getD "") then
    (.badRequest "Invalid email format", db)
  else
    let row : FeedbackRow :=
      { id := db.nextFeedbackId,
        title := b.title.getD "",
        description := b.description.getD "",
        user_email := b.user_email.getD "",
        created_at := db.clock,
        status := "Open" }
    let db' : DB :=
      { db with feedback := db.feedback ++ [row],
                nextFeedbackId := db.nextFeedbackId + 1,
                clock := db.clock + 1 }
    (.created row 0 0, db')

/-! ### Admin gate -/

/-- The admin gate requireAdmin: the `x-admin-token` header must be present, nonempty
(JS truthiness) and equal to the configured secret. -/
def requireAdmin (adminToken : String) (token : Option String) : Bool :=
  match token with
  | none => false
  | some t => !t.isEmpty && t == adminToken

/-- The whitelist ALLOWED_STATUSES. -/
def ALLOWED_STATUSES : List String :=
  ["Open", "Planned", "In Progress", "Completed"]

/-! ### PUT /api/feedback/:id -/

/-- The JSON body of `PUT /api/feedback/:id`; `some s` means the field
was present in the body (the code tests `!== undefined`, so an empty
string counts as supplied). -/
structure UpdateBody where
  title : Option String
  description : Option String
  status : Option String
deriving Repr, DecidableEq

/-- Result of `PUT /api/feedback/:id`. -/
inductive UpdateResult where
  | unauthorized
  | badRequest (msg : String)
  | serverError (msg : String)
  | ok (row : FeedbackRow)
deriving Repr, DecidableEq

/-- HTTP status of an `UpdateResult`. -/
def UpdateResult.status : UpdateResult → Nat
  | .unauthorized => 401
  | .badRequest _ => 400
  | .serverError _ => 500
  | .ok _ => 200

/-- The `UPDATE feedback SET <supplied fields> ...` applied to a row:
each supplied field overwrites, each absent field keeps its value. -/
def applyPatch (b : UpdateBody) (f : FeedbackRow) : FeedbackRow :=
  { f with title := b.title.getD f.title,
           description := b.description.getD f.description,
           status := b.status.getD f.status }

/-- Handler of `PUT /api/feedback/:id`: admin gate, id check (`!feedbackId`),
status whitelist check, empty-patch check, then
`UPDATE feedback SET ... WHERE id = ?` followed by re-selecting the row
(`db.get`, i.e. the first row with that id); a missing row after the
update yields the 500 retrieve error. -/
def updateFeedback (adminToken : String) (db : DB) (token : Option String)
    (feedbackId : Nat) (b : UpdateBody) : UpdateResult × DB :=
  if !requireAdmin adminToken token then
    (.unauthorized, db)
  else if feedbackId == 0 then
    (.badRequest "Valid feedback id is required", db)
  else if b.status.isSome && !(ALLOWED_STATUSES.contains (b.status.getD "")) then
    (.badRequest "Invalid status value", db)
  else if b.title.isNone && b.description.isNone && b.status.isNone then
    (.badRequest "No fields to update", db)
  else
    let db' : DB :=
      { db with feedback := db.feedback.map (fun f =>
          if f.id == feedbackId then applyPatch b f else f) }
    match db'.feedback.find? (fun f => f.id == feedbackId) with
    | some row => (.ok row, db')
    | none => (.serverError "Failed to retrieve updated feedback", db')

/-! ### DELETE /api/feedback/:id -/

/-- Result of `DELETE /api/feedback/:id`. -/
inductive DeleteResult where
  | unauthorized
  | badRequest (msg : String)
  | notFound
  | ok
deriving Repr, DecidableEq

/-- HTTP status of a `DeleteResult`. -/
def DeleteResult.status : DeleteResult → Nat
  | .unauthorized => 401
  | .badRequest _ => 400
  | .notFound => 404
  | .ok => 200

/-- Handler of `DELETE /api/feedback/:id`: admin gate, id check, then the three
sequential deletes — upvotes referencing the id, comments referencing
the id, the feedback row — in that order (no transaction: the dependent
deletes persist even when the final delete affects zero rows, which
answers 404). -/
def deleteFeedback (adminToken : String) (db : DB) (token : Option String)
    (feedbackId : Nat) : DeleteResult × DB :=
  if !requireAdmin adminToken token then
    (.unauthorized, db)
  else if feedbackId == 0 then
    (.badRequest "Valid feedback id is required", db)
  else
    let db1 : DB := { db with
      upvotes := db.upvotes.filter (fun u => u.feedback_id != feedbackId) }
    let db2 : DB := { db1 with
      comments := db1.comments.filter (fun c => c.feedback_id != feedbackId) }
    let changes := (db2.feedback.filter (fun f => f.id == feedbackId)).length
    let db3 : DB := { db2 with
      feedback := db2.feedback.filter (fun f => f.id != feedbackId) }
    if changes == 0 then (.notFound, db3) else (.ok, db3)

/-! ### POST /api/feedback/:id/upvote -/

/-- The signal SQLite raises on `INSERT INTO upvotes` when the
`UNIQUE (feedback_id, user_email)` constraint is violated. -/
inductive InsertError where
  | uniqueViolation
deriving Repr, DecidableEq

/-- The statement `INSERT INTO upvotes (feedback_id, user_email) VALUES (?, ?)`:
the store rejects the insert with the uniqueness-violation signal when
a row for the pair already exists; no referential check on feedback_id
is performed (foreign keys are declared but never enabled). -/
def insertUpvote (db : DB) (fid : Nat) (email : String) :
    Except InsertError DB :=
  if db.upvotes.any (fun u => u.feedback_id == fid && u.user_email == email) then
    .error .uniqueViolation
  else
    .ok { db with
          upvotes := db.upvotes ++ [⟨db.nextUpvoteId, fid, email⟩],
          nextUpvoteId := db.nextUpvoteId + 1 }

/-- Result of `POST /api/feedback/:id/upvote`. -/
inductive UpvoteResult where
  | badRequest (msg : String)
  | conflict
  | ok (upvote_count : Nat)
deriving Repr, DecidableEq

/-- HTTP status of an `UpvoteResult`. -/
def UpvoteResult.status : UpvoteResult → Nat
  | .badRequest _ => 400
  | .conflict => 409
  | .ok _ => 200

/-- Handler of `POST /api/feedback/:id/upvote`: validate id and email, attempt the
insert, map the store's uniqueness-violation signal to 409 (no pre-check
query: the branch inspects the insert's error), and on success answer
200 with the re-counted total for the item. -/
def upvoteFeedback (db : DB) (feedbackId : Nat) (user_email : Option String) :
    UpvoteResult × DB :=
  if feedbackId == 0 || !present user_email then
    (.badRequest "feedback id and user_email are required", db)
  else if !isValidEmail (user_email.getD "") then
    (.badRequest "Invalid email format", db)
  else
    match insertUpvote db feedbackId (user_email.getD "") with
    | .error .uniqueViolation => (.conflict, db)
    | .ok db' => (.ok (upvoteCount db' feedbackId), db')

/-! ### POST /api/feedback/:id/comments -/

/-- Result of `POST /api/feedback/:id/comments`. -/
inductive CommentResult where
  | badRequest (msg : String)
  | created (row : CommentRow)
deriving Repr, DecidableEq

/-- HTTP status of a `CommentResult`. -/
def CommentResult.status : CommentResult → Nat
  | .badRequest _ => 400
  | .created _ => 201

/-- Handler of `POST /api/feedback/:id/comments`: validate id, email and comment
text, then `INSERT INTO comments` (no existence check on the feedback
id, no uniqueness constraint) and answer 201 with the re-selected
created row. -/
def addComment (db : DB) (feedbackId : Nat)
    (user_email comment_text : Option String) : CommentResult × DB :=
  if feedbackId == 0 || !present user_email || !present comment_text then
    (.badRequest "feedback id, user_email, and comment_text are required", db)
  else if !isValidEmail (user_email.getD "") then
    (.badRequest "Invalid email format", db)
  else
    let row : CommentRow :=
      { id := db.nextCommentId,
        feedback_id := feedbackId,
        user_email := user_email.getD "",
        comment_text := comment_text.getD "",
        created_at := db.clock }
    let db' : DB :=
      { db with comments := db.comments ++ [row],
                nextCommentId := db.nextCommentId + 1,
                clock := db.clock + 1 }
    (.created row, db')

/-! ### GET /api/feedback/:id/comments -/

/-- Result of `GET /api/feedback/:id/comments`. -/
inductive CommentsResult where
  | badRequest (msg : String)
  | ok (rows : List CommentRow)
deriving Repr, DecidableEq

/-- HTTP status of a `CommentsResult`. -/
def CommentsResult.status : CommentsResult → Nat
  | .badRequest _ => 400
  | .ok _ => 200

/-- The clause `ORDER BY created_at ASC`. -/
def commentAsc (a b : CommentRow) : Prop :=
  a.created_at ≤ b.created_at

instance : DecidableRel commentAsc := fun a b =>
  inferInstanceAs (Decidable (a.created_at ≤ b.created_at))

instance : IsTotal CommentRow commentAsc :=
  ⟨fun a b => le_total a.created_at b.created_at⟩

instance : IsTrans CommentRow commentAsc :=
  ⟨fun _ _ _ hab hbc => le_trans hab hbc⟩

/-- Handler of `GET /api/feedback/:id/comments`:
`SELECT ... FROM comments WHERE feedback_id = ? ORDER BY created_at ASC`.
The feedback table is never consulted. -/
def getComments (db : DB) (feedbackId : Nat) : CommentsResult :=
  if feedbackId == 0 then
    .badRequest "feedback id is required"
  else
    .ok ((db.comments.filter
      (fun c => c.feedback_id == feedbackId)).insertionSort commentAsc)

/-- The invariant of §3 of the spec: every stored feedback row has a
non-empty title and a non-empty description. -/
def DB.titlesNonEmpty (db : DB) : Prop :=
  ∀ f ∈ db.feedback, f.title ≠ "" ∧ f.description ≠ ""

instance (db : DB) : Decidable db.titlesNonEmpty :=
  inferInstanceAs (Decidable (∀ f ∈ db.feedback, _ ∧ _))

/-! ## Helper lemmas -/

/-- A string passing the email regex is nonempty. -/
theorem isValidEmail_not_isEmpty {e : String} (h : isValidEmail e = true) :
    e.isEmpty = false := by
  cases he : e.isEmpty with
  | false => rfl
  | true =>
    have : e = "" := (String.isEmpty_iff e).mp he
    subst this
    simp [isValidEmail, splitFirst] at h

/-- A field whose `getD ""` passes the email regex is present in the
JS-truthiness sense. -/
theorem present_of_validEmail {o : Option String}
    (h : isValidEmail (o.getD "") = true) : present o = true := by
  cases o with
  | none => simp [Option.getD] at h; exact absurd h (by decide)
  | some s =>
    simp only [Option.getD] at h
    simp [present, isValidEmail_not_isEmpty h]

/-! ## Claim theorems -/

/-- C5: a `POST /api/feedback` request with an empty or missing title,
an empty or missing description, or a `user_email` failing the
`local@domain.tld`-shaped regex is answered 400 and the store is left
unchanged (no feedback row is created). -/
theorem createFeedback_invalid_rejected (db : DB) (b : CreateBody)
    (h : present b.title = false ∨ present b.description = false ∨
         present b.user_email = false ∨
         isValidEmail (b.user_email.getD "") = false) :
    ((createFeedback db b).1).status = 400 ∧ (createFeedback db b).2 = db := by
  unfold createFeedback
  rcases h with h | h | h | h
  · simp [h, CreateResult.status]
  · simp [h, CreateResult.status]
  · simp [h, CreateResult.status]
  · by_cases h1 :
      (!present b.title || !present b.description || !present b.user_email) = true
    · simp [h1, CreateResult.status]
    · simp [h1, h, CreateResult.status]

/-- Witness for C5 at a concrete input (empty title). -/
theorem createFeedback_invalid_rejected_witness :
    ((createFeedback ⟨[], [], [], 1, 1, 1, 0⟩
        ⟨some "", some "D", some "a@b.c"⟩).1).status = 400 ∧
    (createFeedback ⟨[], [], [], 1, 1, 1, 0⟩
        ⟨some "", some "D", some "a@b.c"⟩).2 = ⟨[], [], [], 1, 1, 1, 0⟩ :=
  createFeedback_invalid_rejected _ _ (Or.inl (by decide))

/-- C6: a `POST /api/feedback` request with non-empty title, non-empty
description and a validly shaped email inserts a new row with status
defaulted to `"Open"` and the server-assigned creation timestamp, and
answers 201 with the created representation carrying `upvote_count = 0`
and `comment_count = 0`. -/
theorem createFeedback_valid_creates (db : DB) (b : CreateBody)
    (ht : present b.title = true) (hd : present b.description = true)
    (he : isValidEmail (b.user_email.getD "") = true) :
    ((createFeedback db b).1).status = 201 ∧
    createFeedback db b =
      (.created
        { id := db.nextFeedbackId, title := b.title.getD "",
          description := b.description.getD "",
          user_email := b.user_email.getD "",
          created_at := db.clock, status := "Open" } 0 0,
       { db with
         feedback := db.feedback ++
           [{ id := db.nextFeedbackId, title := b.title.getD "",
              description := b.description.getD "",
              user_email := b.user_email.getD "",
              created_at := db.clock, status := "Open" }],
         nextFeedbackId := db.nextFeedbackId + 1,
         clock := db.clock + 1 }) := by
  have hp := present_of_validEmail he
  unfold createFeedback
  simp [ht, hd, hp, he, CreateResult.status]

/-- Witness for C6 at a concrete input. -/
theorem createFeedback_valid_creates_witness :
    ((createFeedback ⟨[], [], [], 1, 1, 1, 0⟩
        ⟨some "T", some "D", some "a@b.c"⟩).1).status = 201 ∧
    createFeedback ⟨[], [], [], 1, 1, 1, 0⟩ ⟨some "T", some "D", some "a@b.c"⟩ =
      (.created ⟨1, "T", "D", "a@b.c", 0, "Open"⟩ 0 0,
       ⟨[⟨1, "T", "D", "a@b.c", 0, "Open"⟩], [], [], 2, 1, 1, 1⟩) :=
  createFeedback_valid_creates _ _ (by decide) (by decide) (by decide)

/-- C4: the listing returns every stored feedback item joined with its
computed counts (a permutation of the mapped table); with
`sortBy=newest` the output is sorted by creation time descending, and
with `sortBy` absent or `upvotes` it is sorted by upvote count
descending with ties broken by creation time descending. -/
theorem listFeedback_sorted (db : DB) :
    ((listFeedback db (some "newest")).Perm
        (db.feedback.map (feedbackView db)) ∧
      (listFeedback db (some "newest")).Sorted newestOrder) ∧
    ((listFeedback db none).Perm (db.feedback.map (feedbackView db)) ∧
      (listFeedback db none).Sorted upvotesOrder) ∧
    ((listFeedback db (some "upvotes")).Perm
        (db.feedback.map (feedbackView db)) ∧
      (listFeedback db (some "upvotes")).Sorted upvotesOrder) := by
  have h1 : listFeedback db (some "newest") =
      (db.feedback.map (feedbackView db)).insertionSort newestOrder := by
    unfold listFeedback
    norm_num
    intro h
    exact absurd (by decide) h
  have h2 : listFeedback db none =
      (db.feedback.map (feedbackView db)).insertionSort upvotesOrder := by
    unfold listFeedback
    norm_num
    intro h
    exact absurd h (by decide)
  have h3 : listFeedback db (some "upvotes") =
      (db.feedback.map (feedbackView db)).insertionSort upvotesOrder := by
    unfold listFeedback
    norm_num
    intro h
    exact absurd h (by decide)
  rw [h1, h2, h3]
  exact ⟨⟨List.perm_insertionSort _ _, List.sorted_insertionSort _ _⟩,
    ⟨List.perm_insertionSort _ _, List.sorted_insertionSort _ _⟩,
    ⟨List.perm_insertionSort _ _, List.sorted_insertionSort _ _⟩⟩

/-- C9: the handler of `GET /api/feedback/:id/comments` answers 200 with exactly the
comments referencing the id, sorted by creation time ascending; when no
comment references the id the list is empty (no error), and the handler
never consults the feedback table (no existence check on the id). -/
theorem getComments_spec (db : DB) (fid : Nat) (hfid : fid ≠ 0) :
    getComments db fid =
      .ok ((db.comments.filter
        (fun c => c.feedback_id == fid)).insertionSort commentAsc) ∧
    ((db.comments.filter
        (fun c => c.feedback_id == fid)).insertionSort commentAsc).Perm
      (db.comments.filter (fun c => c.feedback_id == fid)) ∧
    ((db.comments.filter
        (fun c => c.feedback_id == fid)).insertionSort commentAsc).Sorted
      commentAsc ∧
    ((∀ c ∈ db.comments, c.feedback_id ≠ fid) →
      getComments db fid = .ok []) ∧
    (∀ fb nid, getComments
        { db with feedback := fb, nextFeedbackId := nid } fid =
      getComments db fid) := by
  have hfid' : (fid == 0) = false := by simpa using hfid
  refine ⟨?_, List.perm_insertionSort _ _, List.sorted_insertionSort _ _,
    ?_, fun fb nid => rfl⟩
  · unfold getComments
    simp [hfid']
  · intro h
    have hnil : db.comments.filter (fun c => c.feedback_id == fid) = [] :=
      List.filter_eq_nil_iff.mpr (fun c hc => by simpa using h c hc)
    unfold getComments
    simp [hfid', hnil]

/-- Witness for C9 at a concrete store. -/
theorem getComments_spec_witness :
    getComments ⟨[], [], [⟨1, 7, "a@b.c", "hi", 3⟩], 1, 1, 2, 4⟩ 7 =
      .ok ((([⟨1, 7, "a@b.c", "hi", 3⟩] : List CommentRow).filter
        (fun c => c.feedback_id == 7)).insertionSort commentAsc) :=
  (getComments_spec ⟨[], [], [⟨1, 7, "a@b.c", "hi", 3⟩], 1, 1, 2, 4⟩ 7
    (by decide)).1

/-- C3: an authorized `DELETE /api/feedback/:id` removes every upvote
row referencing the id, every comment row referencing the id, and the
feedback row itself (the handler issues the three deletes in that
order); when no feedback row carried the id the answer is 404 even
though the dependent-row deletes were performed (no transaction), and
when one existed the answer is 200. -/
theorem deleteFeedback_spec (adminToken : String) (db : DB)
    (token : Option String) (fid : Nat)
    (hauth : requireAdmin adminToken token = true) (hfid : fid ≠ 0) :
    ((deleteFeedback adminToken db token fid).2).upvotes =
        db.upvotes.filter (fun u => u.feedback_id != fid) ∧
    ((deleteFeedback adminToken db token fid).2).comments =
        db.comments.filter (fun c => c.feedback_id != fid) ∧
    ((deleteFeedback adminToken db token fid).2).feedback =
        db.feedback.filter (fun f => f.id != fid) ∧
    ((∀ f ∈ db.feedback, f.id ≠ fid) →
        (deleteFeedback adminToken db token fid).1 = .notFound ∧
        ((deleteFeedback adminToken db token fid).1).status = 404) ∧
    ((∃ f ∈ db.feedback, f.id = fid) →
        (deleteFeedback adminToken db token fid).1 = .ok ∧
        ((deleteFeedback adminToken db token fid).1).status = 200) := by
  have hfid' : (fid == 0) = false := by simpa using hfid
  by_cases hall : ∀ f ∈ db.feedback, f.id ≠ fid
  · have hnil : db.feedback.filter (fun f => f.id == fid) = [] :=
      List.filter_eq_nil_iff.mpr (fun f hf => by simpa using hall f hf)
    refine ⟨?_, ?_, ?_, fun _ => ?_, fun hex => ?_⟩ <;>
      unfold deleteFeedback <;>
      simp [hauth, hfid', hnil, DeleteResult.status]
    obtain ⟨f, hf, hfe⟩ := hex
    exact absurd hfe (hall f hf)
  · have hne : db.feedback.filter (fun f => f.id == fid) ≠ [] := by
      intro hnil
      exact hall (fun f hf => by
        have := List.filter_eq_nil_iff.mp hnil f hf
        simpa using this)
    have hlen : ((db.feedback.filter (fun f => f.id == fid)).length == 0) =
        false := by
      simpa [List.length_eq_zero] using hne
    refine ⟨?_, ?_, ?_, fun h => absurd h hall, fun _ => ?_⟩ <;>
      unfold deleteFeedback <;>
      simp [hauth, hfid', hlen, DeleteResult.status]

/-- Witness for C3: deleting an existing item with one dangling upvote
and one comment. -/
theorem deleteFeedback_spec_witness :
    ((deleteFeedback "changeme"
        ⟨[⟨1, "T", "D", "a@b.c", 0, "Open"⟩], [⟨1, 1, "a@b.c"⟩],
          [⟨1, 1, "a@b.c", "hi", 0⟩], 2, 2, 2, 1⟩
        (some "changeme") 1).2).upvotes =
      ([⟨1, 1, "a@b.c"⟩] : List UpvoteRow).filter
        (fun u => u.feedback_id != 1) :=
  (deleteFeedback_spec "changeme"
    ⟨[⟨1, "T", "D", "a@b.c", 0, "Open"⟩], [⟨1, 1, "a@b.c"⟩],
      [⟨1, 1, "a@b.c", "hi", 0⟩], 2, 2, 2, 1⟩
    (some "changeme") 1 (by decide) (by decide)).1

/-- C1: for a feedback id and voter email passing validation, the first
upvote of the pair answers 200 carrying the item's total upvote count
(the prior count plus one), and a second upvote of the same pair is
rejected by the store's uniqueness constraint on the insert and answered
409 with the store — hence the item's upvote count — unchanged. -/
theorem upvote_twice_conflict (db : DB) (fid : Nat) (email : String)
    (hfid : fid ≠ 0) (he : isValidEmail email = true)
    (hnew : ∀ u ∈ db.upvotes, ¬(u.feedback_id = fid ∧ u.user_email = email)) :
    ∃ db1 : DB,
      upvoteFeedback db fid (some email) = (.ok (upvoteCount db1 fid), db1) ∧
      upvoteCount db1 fid = upvoteCount db fid + 1 ∧
      (UpvoteResult.ok (upvoteCount db1 fid)).status = 200 ∧
      upvoteFeedback db1 fid (some email) = (.conflict, db1) ∧
      UpvoteResult.conflict.status = 409 := by
  have hfid' : (fid == 0) = false := by simpa using hfid
  have hp : present (some email) = true := by
    simp [present, isValidEmail_not_isEmpty he]
  have hany : (db.upvotes.any
      (fun u => u.feedback_id == fid && u.user_email == email)) = false := by
    simp only [List.any_eq_false]
    intro u hu
    simpa using hnew u hu
  refine ⟨{ db with
      upvotes := db.upvotes ++ [⟨db.nextUpvoteId, fid, email⟩],
      nextUpvoteId := db.nextUpvoteId + 1 }, ?_, ?_, rfl, ?_, rfl⟩
  · unfold upvoteFeedback insertUpvote
    simp [hfid', hp, he, hany]
  · simp [upvoteCount, List.filter_append]
  · unfold upvoteFeedback insertUpvote
    simp [hfid', hp, he]

/-- Witness for C1: upvoting item 1 twice with the same email. -/
theorem upvote_twice_conflict_witness :
    ∃ db1 : DB,
      upvoteFeedback ⟨[⟨1, "T", "D", "a@b.c", 0, "Open"⟩], [], [], 2, 1, 1, 1⟩
          1 (some "v@w.xy") = (.ok (upvoteCount db1 1), db1) ∧
      upvoteCount db1 1 =
        upvoteCount ⟨[⟨1, "T", "D", "a@b.c", 0, "Open"⟩], [], [], 2, 1, 1, 1⟩
          1 + 1 ∧
      (UpvoteResult.ok (upvoteCount db1 1)).status = 200 ∧
      upvoteFeedback db1 1 (some "v@w.xy") = (.conflict, db1) ∧
      UpvoteResult.conflict.status = 409 :=
  upvote_twice_conflict ⟨[⟨1, "T", "D", "a@b.c", 0, "Open"⟩], [], [], 2, 1, 1, 1⟩
    1 "v@w.xy" (by decide) (by decide) (by decide)

/-- C10: neither `POST /api/feedback/:id/upvote` nor
`POST /api/feedback/:id/comments` checks that the feedback id exists:
with validated inputs and no feedback row carrying the id (and, for the
upvote, no prior upvote of the pair), both inserts succeed — 200 with an
upvote count, 201 with the created comment row — leaving a row that
references a nonexistent feedback item. -/
theorem insert_without_existence_check (db : DB) (fid : Nat)
    (email ctext : String)
    (hfid : fid ≠ 0) (he : isValidEmail email = true) (hct : ctext ≠ "")
    (hnofb : ∀ f ∈ db.feedback, f.id ≠ fid)
    (hnew : ∀ u ∈ db.upvotes, ¬(u.feedback_id = fid ∧ u.user_email = email)) :
    ((upvoteFeedback db fid (some email)).1 =
        .ok (upvoteCount (upvoteFeedback db fid (some email)).2 fid) ∧
      ((upvoteFeedback db fid (some email)).1).status = 200 ∧
      (∃ u ∈ ((upvoteFeedback db fid (some email)).2).upvotes,
        u.feedback_id = fid) ∧
      (∀ f ∈ ((upvoteFeedback db fid (some email)).2).feedback,
        f.id ≠ fid)) ∧
    ((addComment db fid (some email) (some ctext)).1 =
        .created ⟨db.nextCommentId, fid, email, ctext, db.clock⟩ ∧
      ((addComment db fid (some email) (some ctext)).1).status = 201 ∧
      (⟨db.nextCommentId, fid, email, ctext, db.clock⟩ : CommentRow) ∈
        ((addComment db fid (some email) (some ctext)).2).comments ∧
      (∀ f ∈ ((addComment db fid (some email) (some ctext)).2).feedback,
        f.id ≠ fid)) := by
  have hfid' : (fid == 0) = false := by simpa using hfid
  have hp : present (some email) = true := by
    simp [present, isValidEmail_not_isEmpty he]
  have hpc0 : ctext.isEmpty = false := by
    cases h : ctext.isEmpty with
    | false => rfl
    | true => exact absurd ((String.isEmpty_iff ctext).mp h) hct
  have hpc : present (some ctext) = true := by simp [present, hpc0]
  have hany : (db.upvotes.any
      (fun u => u.feedback_id == fid && u.user_email == email)) = false := by
    simp only [List.any_eq_false]
    intro u hu
    simpa using hnew u hu
  constructor
  · have hup : upvoteFeedback db fid (some email) =
        (.ok (upvoteCount { db with
            upvotes := db.upvotes ++ [⟨db.nextUpvoteId, fid, email⟩],
            nextUpvoteId := db.nextUpvoteId + 1 } fid),
         { db with
            upvotes := db.upvotes ++ [⟨db.nextUpvoteId, fid, email⟩],
            nextUpvoteId := db.nextUpvoteId + 1 }) := by
      unfold upvoteFeedback insertUpvote
      simp [hfid', hp, he, hany]
    rw [hup]
    exact ⟨rfl, rfl, ⟨⟨db.nextUpvoteId, fid, email⟩, by simp, rfl⟩, hnofb⟩
  · have hc : addComment db fid (some email) (some ctext) =
        (.created ⟨db.nextCommentId, fid, email, ctext, db.clock⟩,
         { db with
            comments := db.comments ++
              [⟨db.nextCommentId, fid, email, ctext, db.clock⟩],
            nextCommentId := db.nextCommentId + 1,
            clock := db.clock + 1 }) := by
      unfold addComment
      simp [hfid', hp, hpc, he]
    rw [hc]
    exact ⟨rfl, rfl, by simp, hnofb⟩

/-- Witness for C10: upvoting and commenting on id 42 in a store whose
feedback table is empty. -/
theorem insert_without_existence_check_witness :
    ((upvoteFeedback ⟨[], [], [], 1, 1, 1, 0⟩ 42
        (some "v@w.xy")).1).status = 200 ∧
    ((addComment ⟨[], [], [], 1, 1, 1, 0⟩ 42 (some "v@w.xy")
        (some "hello")).1).status = 201 :=
  ⟨(insert_without_existence_check ⟨[], [], [], 1, 1, 1, 0⟩ 42 "v@w.xy" "hello"
      (by decide) (by decide) (by decide) (by decide) (by decide)).1.2.1,
   (insert_without_existence_check ⟨[], [], [], 1, 1, 1, 0⟩ 42 "v@w.xy" "hello"
      (by decide) (by decide) (by decide) (by decide) (by decide)).2.2.1⟩

/-- The patch applyPatch never changes the row id. -/
theorem applyPatch_id (b : UpdateBody) (f : FeedbackRow) :
    (applyPatch b f).id = f.id := rfl

/-- Patching a mapped table and then re-selecting by id commutes with
selecting first and patching the found row. -/
theorem find?_patched (b : UpdateBody) (fid : Nat) (l : List FeedbackRow) :
    (l.map (fun f => if f.id == fid then applyPatch b f else f)).find?
      (fun f => f.id == fid) =
    (l.find? (fun f => f.id == fid)).map
      (fun f => if f.id == fid then applyPatch b f else f) := by
  rw [List.find?_map]
  have hpg : ((fun f : FeedbackRow => f.id == fid) ∘ fun f =>
      if f.id == fid then applyPatch b f else f) =
      (fun f : FeedbackRow => f.id == fid) := by
    funext f
    by_cases h : (f.id == fid) = true
    · simp [Function.comp, h, applyPatch_id]
    · simp only [Bool.not_eq_true] at h
      simp [Function.comp, h]
  rw [hpg]

/-- The success path of `PUT /api/feedback/:id`: once the gate and the
validations pass and a row with the id is found, the handler updates the
matching rows and answers with the patched row it re-selects. -/
theorem updateFeedback_ok (adminToken : String) (db : DB)
    (token : Option String) (fid : Nat) (b : UpdateBody) (row0 : FeedbackRow)
    (hauth : requireAdmin adminToken token = true)
    (hfid : (fid == 0) = false)
    (hstat : (b.status.isSome &&
      !(ALLOWED_STATUSES.contains (b.status.getD ""))) = false)
    (hne : (b.title.isNone && b.description.isNone && b.status.isNone) = false)
    (hfind : db.feedback.find? (fun f => f.id == fid) = some row0) :
    updateFeedback adminToken db token fid b =
      (.ok (applyPatch b row0),
       { db with feedback := db.feedback.map (fun f =>
           if f.id == fid then applyPatch b f else f) }) := by
  have hrow0p : (row0.id == fid) = true := (List.find?_eq_some.mp hfind).1
  unfold updateFeedback
  simp only [hauth, hfid, hstat, hne, Bool.not_true, Bool.false_eq_true,
    if_false]
  rw [find?_patched, hfind]
  simp [hrow0p]
  intro h
  exact absurd (by simpa using hrow0p) h

/-- C7: an authorized `PUT /api/feedback/:id` whose body carries a
status outside `ALLOWED_STATUSES` is answered 400 with the store — in
particular the target item's stored status — unchanged; with
`status = "Planned"` (an allowed value), a correct token, a valid id and
an existing target row, the answer is 200 with the status updated in the
store. -/
theorem updateFeedback_status_check (adminToken : String) (db : DB)
    (token : Option String) (fid : Nat) (b : UpdateBody)
    (hauth : requireAdmin adminToken token = true) :
    (∀ s, b.status = some s → s ∉ ALLOWED_STATUSES →
      ((updateFeedback adminToken db token fid b).1).status = 400 ∧
      (updateFeedback adminToken db token fid b).2 = db) ∧
    (fid ≠ 0 → ∀ row0, db.feedback.find? (fun f => f.id == fid) = some row0 →
      ∃ row, updateFeedback adminToken db token fid
          ⟨none, none, some "Planned"⟩ =
        (.ok row,
         { db with feedback := db.feedback.map (fun f =>
             if f.id == fid
             then applyPatch ⟨none, none, some "Planned"⟩ f else f) }) ∧
        row.status = "Planned" ∧ (UpdateResult.ok row).status = 200 ∧
        ∀ f ∈ ((updateFeedback adminToken db token fid
            ⟨none, none, some "Planned"⟩).2).feedback,
          f.id = fid → f.status = "Planned") := by
  constructor
  · intro s hs hns
    by_cases hf0 : (fid == 0) = true
    · unfold updateFeedback
      simp [hauth, hf0, UpdateResult.status]
    · have hf0' : (fid == 0) = false := by simpa using hf0
      unfold updateFeedback
      simp [hauth, hf0', hs, hns, UpdateResult.status]
  · intro hfid row0 hfind
    have hf0' : (fid == 0) = false := by simpa using hfid
    have hupd := updateFeedback_ok adminToken db token fid
      ⟨none, none, some "Planned"⟩ row0 hauth hf0' (by decide) (by decide) hfind
    refine ⟨applyPatch ⟨none, none, some "Planned"⟩ row0, hupd, rfl, rfl, ?_⟩
    rw [hupd]
    intro f hf hfidf
    obtain ⟨f0, hf0mem, rfl⟩ := List.mem_map.mp hf
    by_cases h : (f0.id == fid) = true
    · simp [h, applyPatch]
    · simp only [Bool.not_eq_true] at h
      simp only [h, if_false, Bool.false_eq_true] at hfidf ⊢
      exact absurd (by simpa using hfidf) (by simpa using h)

/-- Witness for C7: rejecting status `"Bogus"` and applying
`"Planned"`. -/
theorem updateFeedback_status_check_witness :
    (((updateFeedback "changeme"
        ⟨[⟨1, "T", "D", "a@b.c", 0, "Open"⟩], [], [], 2, 1, 1, 1⟩
        (some "changeme") 1 ⟨none, none, some "Bogus"⟩).1).status = 400 ∧
      (updateFeedback "changeme"
        ⟨[⟨1, "T", "D", "a@b.c", 0, "Open"⟩], [], [], 2, 1, 1, 1⟩
        (some "changeme") 1 ⟨none, none, some "Bogus"⟩).2 =
        ⟨[⟨1, "T", "D", "a@b.c", 0, "Open"⟩], [], [], 2, 1, 1, 1⟩) ∧
    (∃ row, updateFeedback "changeme"
        ⟨[⟨1, "T", "D", "a@b.c", 0, "Open"⟩], [], [], 2, 1, 1, 1⟩
        (some "changeme") 1 ⟨none, none, some "Planned"⟩ =
      (.ok row,
       { (⟨[⟨1, "T", "D", "a@b.c", 0, "Open"⟩], [], [], 2, 1, 1, 1⟩ : DB) with
         feedback := (⟨[⟨1, "T", "D", "a@b.c", 0, "Open"⟩], [], [], 2, 1, 1,
           1⟩ : DB).feedback.map (fun f =>
             if f.id == 1
             then applyPatch ⟨none, none, some "Planned"⟩ f else f) }) ∧
      row.status = "Planned" ∧ (UpdateResult.ok row).status = 200 ∧
      ∀ f ∈ ((updateFeedback "changeme"
          ⟨[⟨1, "T", "D", "a@b.c", 0, "Open"⟩], [], [], 2, 1, 1, 1⟩
          (some "changeme") 1 ⟨none, none, some "Planned"⟩).2).feedback,
        f.id = 1 → f.status = "Planned") :=
  ⟨(updateFeedback_status_check "changeme"
      ⟨[⟨1, "T", "D", "a@b.c", 0, "Open"⟩], [], [], 2, 1, 1, 1⟩
      (some "changeme") 1 ⟨none, none, some "Bogus"⟩ (by decide)).1
      "Bogus" rfl (by decide),
   (updateFeedback_status_check "changeme"
      ⟨[⟨1, "T", "D", "a@b.c", 0, "Open"⟩], [], [], 2, 1, 1, 1⟩
      (some "changeme") 1 ⟨none, none, some "Planned"⟩ (by decide)).2
      (by decide) ⟨1, "T", "D", "a@b.c", 0, "Open"⟩ (by decide)⟩

/-- C8: an authorized `PUT /api/feedback/:id` supplying a non-empty
subset of the three patchable fields changes only the supplied fields of
the target row — every unsupplied field, including `user_email` and
`created_at`, keeps its prior value, every row with a different id is
untouched, and the upvote and comment tables are untouched — and the
response carries the resulting row; a request supplying none of the
three fields is answered 400 with the store unchanged. -/
theorem updateFeedback_frame (adminToken : String) (db : DB)
    (token : Option String) (fid : Nat) (b : UpdateBody)
    (row0 : FeedbackRow)
    (hauth : requireAdmin adminToken token = true) (hfid : fid ≠ 0)
    (hstat : ∀ s, b.status = some s → s ∈ ALLOWED_STATUSES)
    (hfind : db.feedback.find? (fun f => f.id == fid) = some row0) :
    ((b.title.isSome ∨ b.description.isSome ∨ b.status.isSome) →
      updateFeedback adminToken db token fid b =
        (.ok (applyPatch b row0),
         { db with feedback := db.feedback.map (fun f =>
             if f.id == fid then applyPatch b f else f) }) ∧
      ((updateFeedback adminToken db token fid b).1).status = 200 ∧
      ((updateFeedback adminToken db token fid b).2).upvotes = db.upvotes ∧
      ((updateFeedback adminToken db token fid b).2).comments = db.comments ∧
      (∀ f, (applyPatch b f).id = f.id ∧
        (applyPatch b f).user_email = f.user_email ∧
        (applyPatch b f).created_at = f.created_at) ∧
      (b.title = none → ∀ f, (applyPatch b f).title = f.title) ∧
      (b.description = none →
        ∀ f, (applyPatch b f).description = f.description) ∧
      (b.status = none → ∀ f, (applyPatch b f).status = f.status) ∧
      (b.title.isSome → ∀ f, (applyPatch b f).title = b.title.getD "") ∧
      (b.description.isSome →
        ∀ f, (applyPatch b f).description = b.description.getD "") ∧
      (b.status.isSome → ∀ f, (applyPatch b f).status = b.status.getD "") ∧
      (∀ f ∈ db.feedback, f.id ≠ fid →
        (if f.id == fid then applyPatch b f else f) = f)) ∧
    ((b.title = none ∧ b.description = none ∧ b.status = none) →
      ((updateFeedback adminToken db token fid b).1).status = 400 ∧
      (updateFeedback adminToken db token fid b).2 = db) := by
  have hf0' : (fid == 0) = false := by simpa using hfid
  have hstatb : (b.status.isSome &&
      !(ALLOWED_STATUSES.contains (b.status.getD ""))) = false := by
    cases hbs : b.status with
    | none => simp
    | some s =>
      have : s ∈ ALLOWED_STATUSES := hstat s hbs
      simp [this]
  constructor
  · intro hsupplied
    have hne : (b.title.isNone && b.description.isNone && b.status.isNone) =
        false := by
      rcases hsupplied with h | h | h <;>
        simp [Option.isNone_iff_eq_none, Option.isSome_iff_exists] at h ⊢ <;>
        obtain ⟨s, hs⟩ := h <;> simp [hs]
    have hupd := updateFeedback_ok adminToken db token fid b row0
      hauth hf0' hstatb hne hfind
    rw [hupd]
    refine ⟨rfl, rfl, rfl, rfl, fun f => ⟨rfl, rfl, rfl⟩, ?_, ?_, ?_,
      ?_, ?_, ?_, ?_⟩
    · intro h f; simp [applyPatch, h]
    · intro h f; simp [applyPatch, h]
    · intro h f; simp [applyPatch, h]
    · intro h f
      obtain ⟨s, hs⟩ := Option.isSome_iff_exists.mp h
      simp [applyPatch, hs]
    · intro h f
      obtain ⟨s, hs⟩ := Option.isSome_iff_exists.mp h
      simp [applyPatch, hs]
    · intro h f
      obtain ⟨s, hs⟩ := Option.isSome_iff_exists.mp h
      simp [applyPatch, hs]
    · intro f _ hne'
      simp [hne']
  · rintro ⟨ht, hd, hs⟩
    unfold updateFeedback
    simp [hauth, hf0', ht, hd, hs, UpdateResult.status]

/-- Witness for C8: patching only the description of item 1. -/
theorem updateFeedback_frame_witness :
    updateFeedback "changeme"
        ⟨[⟨1, "T", "D", "a@b.c", 0, "Open"⟩], [], [], 2, 1, 1, 1⟩
        (some "changeme") 1 ⟨none, some "D2", none⟩ =
      (.ok (applyPatch ⟨none, some "D2", none⟩ ⟨1, "T", "D", "a@b.c", 0, "Open"⟩),
       { (⟨[⟨1, "T", "D", "a@b.c", 0, "Open"⟩], [], [], 2, 1, 1, 1⟩ : DB) with
         feedback := (⟨[⟨1, "T", "D", "a@b.c", 0, "Open"⟩], [], [], 2, 1, 1,
           1⟩ : DB).feedback.map (fun f =>
             if f.id == 1 then applyPatch ⟨none, some "D2", none⟩ f else f) }) :=
  ((updateFeedback_frame "changeme"
      ⟨[⟨1, "T", "D", "a@b.c", 0, "Open"⟩], [], [], 2, 1, 1, 1⟩
      (some "changeme") 1 ⟨none, some "D2", none⟩
      ⟨1, "T", "D", "a@b.c", 0, "Open"⟩ (by decide) (by decide)
      (fun s hs => by cases hs) (by decide)).1
    (Or.inr (Or.inl rfl))).1

/-- A present (truthy) optional string is not the empty string. -/
theorem getD_ne_empty {o : Option String} (h : present o = true) :
    o.getD "" ≠ "" := by
  cases o with
  | none => simp [present] at h
  | some s =>
    simp only [present, Bool.not_eq_true'] at h
    simp only [Option.getD]
    intro he
    rw [he] at h
    exact absurd h (by decide)

/-- A patched row keeps non-empty title and description provided any
supplied title or description is non-empty. -/
theorem applyPatch_wf (b : UpdateBody) (f : FeedbackRow)
    (hf : f.title ≠ "" ∧ f.description ≠ "")
    (hbt : ∀ s, b.title = some s → s ≠ "")
    (hbd : ∀ s, b.description = some s → s ≠ "") :
    (applyPatch b f).title ≠ "" ∧ (applyPatch b f).description ≠ "" := by
  constructor
  · cases h : b.title with
    | none => simpa [applyPatch, h] using hf.1
    | some s => simpa [applyPatch, h] using hbt s h
  · cases h : b.description with
    | none => simpa [applyPatch, h] using hf.2
    | some s => simpa [applyPatch, h] using hbd s h

/-- C2 counterexample: the claim that every operation preserves
non-empty titles and descriptions is false — an authorized
`PUT /api/feedback/:id` with body `{"title": ""}` passes the handler's
`!== undefined` checks, is answered 200, and stores an empty title. -/
theorem update_stores_empty_title :
    DB.titlesNonEmpty
      ⟨[⟨1, "Title", "Desc", "a@b.c", 0, "Open"⟩], [], [], 2, 1, 1, 1⟩ ∧
    ((updateFeedback "changeme"
        ⟨[⟨1, "Title", "Desc", "a@b.c", 0, "Open"⟩], [], [], 2, 1, 1, 1⟩
        (some "changeme") 1 ⟨some "", none, none⟩).1).status = 200 ∧
    ¬ DB.titlesNonEmpty (updateFeedback "changeme"
        ⟨[⟨1, "Title", "Desc", "a@b.c", 0, "Open"⟩], [], [], 2, 1, 1, 1⟩
        (some "changeme") 1 ⟨some "", none, none⟩).2 := by
  refine ⟨by decide, by decide, ?_⟩
  intro h
  have := h ⟨1, "", "Desc", "a@b.c", 0, "Open"⟩ (by decide)
  exact this.1 rfl

/-- C2 (amended): creation, upvoting, commenting and deletion preserve
the non-empty-title-and-description invariant unconditionally; admin
update preserves it provided every supplied title or description is
non-empty (the handler applies supplied fields without re-validating
them). -/
theorem titlesNonEmpty_preservation (adminToken : String) (db : DB)
    (hdb : DB.titlesNonEmpty db) :
    (∀ b, DB.titlesNonEmpty (createFeedback db b).2) ∧
    (∀ fid e, DB.titlesNonEmpty (upvoteFeedback db fid e).2) ∧
    (∀ fid e t, DB.titlesNonEmpty (addComment db fid e t).2) ∧
    (∀ token fid,
      DB.titlesNonEmpty (deleteFeedback adminToken db token fid).2) ∧
    (∀ token fid b, (∀ s, b.title = some s → s ≠ "") →
      (∀ s, b.description = some s → s ≠ "") →
      DB.titlesNonEmpty (updateFeedback adminToken db token fid b).2) := by
  refine ⟨?_, ?_, ?_, ?_, ?_⟩
  · intro b
    unfold createFeedback
    split
    · exact hdb
    split
    · exact hdb
    next h1 _ =>
      simp only [Bool.or_eq_true, Bool.not_eq_true', not_or,
        Bool.not_eq_false] at h1
      intro f hf
      rcases List.mem_append.mp hf with hf | hf
      · exact hdb f hf
      · rcases List.mem_singleton.mp hf with rfl
        exact ⟨getD_ne_empty h1.1.1, getD_ne_empty h1.1.2⟩
  · intro fid e
    intro f hf
    unfold upvoteFeedback insertUpvote at hf
    split at hf
    · exact hdb f hf
    split at hf
    · exact hdb f hf
    split at hf
    · exact hdb f hf
    next db1 heq =>
      split at heq
      · cases heq
      · cases heq
        exact hdb f hf
  · intro fid e t
    intro f hf
    unfold addComment at hf
    split at hf
    · exact hdb f hf
    split at hf
    · exact hdb f hf
    · exact hdb f hf
  · intro token fid
    intro f hf
    unfold deleteFeedback at hf
    split at hf
    · exact hdb f hf
    split at hf
    · exact hdb f hf
    · dsimp only at hf
      split at hf
      · exact hdb f (List.mem_of_mem_filter hf)
      · exact hdb f (List.mem_of_mem_filter hf)
  · intro token fid b hbt hbd
    intro f hf
    unfold updateFeedback at hf
    split at hf
    · exact hdb f hf
    split at hf
    · exact hdb f hf
    split at hf
    · exact hdb f hf
    split at hf
    · exact hdb f hf
    · dsimp only at hf
      split at hf <;>
      · obtain ⟨f0, hf0, rfl⟩ := List.mem_map.mp hf
        by_cases h : (f0.id == fid) = true
        · simp only [h, if_true]
          exact applyPatch_wf b f0 (hdb f0 hf0) hbt hbd
        · simp only [Bool.not_eq_true] at h
          simp only [h, Bool.false_eq_true, if_false]
          exact hdb f0 hf0

/-- Witness for the amended C2 at a concrete store and update. -/
theorem titlesNonEmpty_preservation_witness :
    DB.titlesNonEmpty (updateFeedback "changeme"
      ⟨[⟨1, "Title", "Desc", "a@b.c", 0, "Open"⟩], [], [], 2, 1, 1, 1⟩
      (some "changeme") 1 ⟨some "T2", none, none⟩).2 :=
  (titlesNonEmpty_preservation "changeme"
    ⟨[⟨1, "Title", "Desc", "a@b.c", 0, "Open"⟩], [], [], 2, 1, 1, 1⟩
    (by decide)).2.2.2.2 (some "changeme") 1 ⟨some "T2", none, none⟩
    (fun s hs => by cases hs; decide) (fun s hs => by cases hs)

end FeedbackBoard

